import Mathlib

/-!
Verification of the warehouse inventory dashboard (`app.py`).

The embedding models Python values that flow through the app as `PyVal`
(strings, numbers as rationals, booleans, None, lists, dicts), the three
MongoDB collections as Lean lists, and each Flask endpoint as a pure
function from the database state and the request data to the new state
and a response.  A Python exception that an endpoint's `try/except`
catches is modelled as the 500 branch; `ast.literal_eval` is modelled by
an executable parser `literal_eval` for the literal subset the stored
data uses (numbers, quoted strings without escapes, lists, string-keyed
dicts, True/False/None); datetimes are integers.
-/

mutual
inductive PyVal where
  | pstr : String → PyVal
  | pnum : ℚ → PyVal
  | pbool : Bool → PyVal
  | pnone : PyVal
  | plist : PyList → PyVal
  | pdict : PyDict → PyVal
deriving DecidableEq, Repr
inductive PyList where
  | nil : PyList
  | cons : PyVal → PyList → PyList
deriving DecidableEq, Repr
inductive PyDict where
  | dnil : PyDict
  | dcons : String → PyVal → PyDict → PyDict
deriving DecidableEq, Repr
end

/-- Python dict access `d[k]`: the most recent binding for `k` wins,
`Option.none` models a `KeyError`. -/
def PyDict.get : PyDict → String → Option PyVal
  | .dnil, _ => Option.none
  | .dcons k v rest, key => match rest.get key with
    | some w => some w
    | Option.none => if k = key then some v else Option.none

/-- Python truthiness `bool(v)`. -/
def PyVal.truthy : PyVal → Bool
  | .pstr s => s ≠ ""
  | .pnum q => q ≠ 0
  | .pbool b => b
  | .pnone => false
  | .plist l => l ≠ .nil
  | .pdict d => d ≠ .dnil

def PyVal.isStr : PyVal → Bool
  | .pstr _ => true
  | _ => false

def PyVal.isDict : PyVal → Bool
  | .pdict _ => true
  | _ => false

/- ## The literal parser modelling `ast.literal_eval` -/

def squote : Char := Char.ofNat 39

def isPySpace (c : Char) : Bool :=
  c = ' ' || c = '\t' || c = '\n' || c = '\r'

def skipWs (cs : List Char) : List Char := cs.dropWhile isPySpace

def digitsNat (ds : List Char) : Nat :=
  ds.foldl (fun n c => 10 * n + (c.toNat - 48)) 0

/-- Scan a numeric literal: optional minus sign, digits, optional
fractional part. -/
def scanNumber (cs : List Char) : Option (PyVal × List Char) :=
  let p := match cs with
    | c :: rest => if c = '-' then (true, rest) else (false, cs)
    | [] => (false, cs)
  let ds := p.2.takeWhile Char.isDigit
  let cs2 := p.2.dropWhile Char.isDigit
  if ds.isEmpty then Option.none
  else
    let ip : ℚ := (digitsNat ds : ℚ)
    match cs2 with
    | c :: cs3 =>
      if c = '.' then
        let fs := cs3.takeWhile Char.isDigit
        let cs4 := cs3.dropWhile Char.isDigit
        let q := ip + (digitsNat fs : ℚ) / ((10 : ℚ) ^ fs.length)
        some (.pnum (if p.1 then -q else q), cs4)
      else some (.pnum (if p.1 then -ip else ip), cs2)
    | [] => some (.pnum (if p.1 then -ip else ip), [])

/-- Scan a quoted string up to the closing quote `q`; escape sequences are
outside the modelled subset and make the scan fail. -/
def scanString (q : Char) : List Char → Option (String × List Char)
  | [] => Option.none
  | c :: cs =>
    if c = q then some ("", cs)
    else if c = '\\' then Option.none
    else (scanString q cs).map (fun p => (⟨c :: p.1.data⟩, p.2))

/-- Consume the characters `ks` from the front of the input. -/
def dropKeyword : List Char → List Char → Option (List Char)
  | [], cs => some cs
  | _ :: _, [] => Option.none
  | k :: ks, c :: cs => if c = k then dropKeyword ks cs else Option.none

mutual
/-- Parse one Python literal, returning it with the unconsumed input. -/
def parseVal : Nat → List Char → Option (PyVal × List Char)
  | 0, _ => Option.none
  | fuel + 1, cs =>
    match skipWs cs with
    | [] => Option.none
    | c :: rest =>
      if c = squote || c = '"' then
        (scanString c rest).map (fun p => (.pstr p.1, p.2))
      else if c = '[' then
        match skipWs rest with
        | ']' :: r2 => some (.plist .nil, r2)
        | r => (parseListTail fuel r).map (fun p => (.plist p.1, p.2))
      else if c = '{' then
        match skipWs rest with
        | '}' :: r2 => some (.pdict .dnil, r2)
        | r => (parseDictTail fuel r).map (fun p => (.pdict p.1, p.2))
      else
        match dropKeyword "True".data (c :: rest) with
        | some r => some (.pbool true, r)
        | Option.none =>
          match dropKeyword "False".data (c :: rest) with
          | some r => some (.pbool false, r)
          | Option.none =>
            match dropKeyword "None".data (c :: rest) with
            | some r => some (.pnone, r)
            | Option.none => scanNumber (c :: rest)

/-- Parse the elements of a non-empty list literal after the `[`. -/
def parseListTail : Nat → List Char → Option (PyList × List Char)
  | 0, _ => Option.none
  | fuel + 1, cs => do
    let (v, r) ← parseVal fuel cs
    match skipWs r with
    | ']' :: r2 => some (.cons v .nil, r2)
    | c :: r2 =>
      if c = ',' then
        match skipWs r2 with
        | ']' :: r3 => some (.cons v .nil, r3)
        | r3 => (parseListTail fuel r3).map (fun p => (.cons v p.1, p.2))
      else Option.none
    | [] => Option.none

/-- Parse the entries of a non-empty dict literal after the `{`; keys are
string literals (the subset the stored capacity records use). -/
def parseDictTail : Nat → List Char → Option (PyDict × List Char)
  | 0, _ => Option.none
  | fuel + 1, cs => do
    let (k, r) ← parseVal fuel cs
    match k with
    | .pstr key =>
      match skipWs r with
      | ':' :: r2 => do
        let (v, r3) ← parseVal fuel (skipWs r2)
        match skipWs r3 with
        | '}' :: r4 => some (.dcons key v .dnil, r4)
        | c :: r4 =>
          if c = ',' then
            match skipWs r4 with
            | '}' :: r5 => some (.dcons key v .dnil, r5)
            | r5 => (parseDictTail fuel r5).map (fun p => (PyDict.dcons key v p.1, p.2))
          else Option.none
        | [] => Option.none
      | _ => Option.none
    | _ => Option.none
end

/-- `ast.literal_eval`: parse the whole string as one literal;
`Option.none` models the `ValueError`/`SyntaxError` it raises. -/
def literal_eval (s : String) : Option PyVal :=
  match parseVal (s.length + 1) s.data with
  | some (v, rest) => if skipWs rest = [] then some v else Option.none
  | Option.none => Option.none

/-- The fallback record `{'length': 0, 'width': 0, 'height': 0}`. -/
def zeroCapacity : PyVal :=
  .pdict (.dcons "length" (.pnum 0)
    (.dcons "width" (.pnum 0) (.dcons "height" (.pnum 0) .dnil)))

/-- `parse_capacity` (app.py lines 21-28): a string is passed to
`ast.literal_eval`, whose failure is absorbed into the zero record;
anything else is returned unchanged. -/
def parse_capacity (capacity : PyVal) : PyVal :=
  match capacity with
  | .pstr s =>
    match literal_eval s with
    | some v => v
    | Option.none => zeroCapacity
  | v => v

/- ## Data model: the three MongoDB collections -/

structure Dims where
  length : ℚ
  width : ℚ
  height : ℚ
deriving DecidableEq, Repr

/-- A document of the `inventory` collection.  `oid` is the Mongo `_id`;
the fields the app stores without coercion keep their JSON value. -/
structure Item where
  oid : String
  item_id : PyVal
  item_name : PyVal
  category : PyVal
  dimensions : Dims
  weight : ℚ
  fragility : Bool
  expiry_date : Option Int
  current_location : PyVal
  entry_date : Int
deriving DecidableEq, Repr

/-- A document of the `warehouse_layout` collection.  `capacity` may be a
dict or its textual encoding; `current_utilization` may be absent. -/
structure Bin where
  zone_id : String
  rack_id : String
  bin_id : String
  capacity : PyVal
  current_utilization : Option ℚ
deriving DecidableEq, Repr

/-- A document of the `movement_logs` collection. -/
structure MovementLog where
  item_id : PyVal
  timestamp : Int
  movement_type : String
  location : PyVal
  order_id : String
deriving DecidableEq, Repr

structure DB where
  inventory : List Item
  warehouse_layout : List Bin
  movement_logs : List MovementLog
deriving DecidableEq, Repr

/- ## Utilization aggregation (dashboard lines 38-48, stats lines 96-106) -/

/-- `c[key]` as a number: Python's arithmetic accepts ints, floats and
bools; any other shape of `c` or value raises and is `Option.none`. -/
def capNum (c : PyVal) (key : String) : Option ℚ :=
  match c with
  | .pdict d =>
    match d.get key with
    | some (.pnum q) => some q
    | some (.pbool b) => some (if b then 1 else 0)
    | _ => Option.none
  | _ => Option.none

/-- `vol = capacity['length'] * capacity['width'] * capacity['height']`
on the parsed capacity of a bin. -/
def binVolume (b : Bin) : Option ℚ := do
  let c := parse_capacity b.capacity
  let l ← capNum c "length"
  let w ← capNum c "width"
  let h ← capNum c "height"
  pure (l * w * h)

/-- One pass of the loop body: add `vol` to the running total and
`vol * b.get('current_utilization', 0)` to the running used sum. -/
def aggStep (acc : ℚ × ℚ) (b : Bin) : Option (ℚ × ℚ) :=
  (binVolume b).map (fun vol => (acc.1 + vol, acc.2 + vol * b.current_utilization.getD 0))

/-- The aggregation loop over the bins, starting from `(0, 0)`; an
exception in any iteration aborts the whole computation. -/
def aggregateBins (bins : List Bin) : Option (ℚ × ℚ) :=
  bins.foldlM aggStep (0, 0)

/-- `(used/total)*100 if total > 0 else 0` — the guard used both by the
dashboard (line 48) and by the per-zone stats (line 106). -/
def utilizationPercent (tc uc : ℚ) : ℚ :=
  if tc > 0 then uc / tc * 100 else 0

/-- The dashboard's utilization figure for a list of bins. -/
def dashboard_utilization (bins : List Bin) : Option ℚ :=
  (aggregateBins bins).map (fun p => utilizationPercent p.1 p.2)

/- ## Item lookup endpoint `/api/item` (lines 58-88) -/

/-- `db.inventory.find_one({"item_name": q})`: first match in natural
order. -/
def find_one_item (inv : List Item) (q : PyVal) : Option Item :=
  inv.find? (fun it => it.item_name == q)

/-- `db.warehouse_layout.find_one` on the three location keys. -/
def find_bin (bins : List Bin) (z r bi : String) : Option Bin :=
  bins.find? (fun b => b.zone_id == z && b.rack_id == r && b.bin_id == bi)

/-- Python `s.split(sep)` for a one-character separator: every occurrence
cuts, empty pieces are kept, and the empty string yields `[""]`. -/
def splitOnChar (sep : Char) : List Char → List String
  | [] => [""]
  | c :: cs =>
    match splitOnChar sep cs with
    | r :: rs => if c = sep then "" :: r :: rs else (⟨c :: r.data⟩ : String) :: rs
    | [] => [""]

def pySplit (s : String) (sep : Char) : List String :=
  splitOnChar sep s.data

/-- Insert into a list already sorted by descending timestamp. -/
def insertDescByTs (m : MovementLog) : List MovementLog → List MovementLog
  | [] => [m]
  | x :: xs => if m.timestamp ≤ x.timestamp then x :: insertDescByTs m xs
               else m :: x :: xs

/-- `sort("timestamp", -1)` as a stable insertion sort. -/
def sortDescByTs : List MovementLog → List MovementLog
  | [] => []
  | x :: xs => insertDescByTs x (sortDescByTs xs)

/-- `db.movement_logs.find({"item_id": iid}).sort("timestamp", -1).limit(5)`. -/
def movement_history (logs : List MovementLog) (iid : PyVal) : List MovementLog :=
  (sortDescByTs (logs.filter (fun m => m.item_id == iid))).take 5

inductive GetItemResp where
  | badRequest : GetItemResp
  | notFound : GetItemResp
  | serverError : GetItemResp
  | success : Item → Option Bin → List MovementLog → GetItemResp
deriving DecidableEq, Repr

/-- The `/api/item` endpoint.  `data` is the request's JSON body
(`Option.none` for an absent body).  An exception inside the handler —
a non-string `current_location` or a location that splits into fewer
than three parts — is caught at the boundary and becomes `serverError`. -/
def get_item (d : DB) (data : Option PyDict) : GetItemResp :=
  match data with
  | Option.none => .badRequest
  | some form =>
    match form.get "item_name" with
    | Option.none => .badRequest
    | some q =>
      match find_one_item d.inventory q with
      | Option.none => .notFound
      | some item =>
        match item.current_location with
        | .pstr loc =>
          match pySplit loc '-' with
          | p0 :: p1 :: p2 :: _ =>
            let bin_data := (find_bin d.warehouse_layout p0 p1 p2).map
              (fun b => { b with capacity := parse_capacity b.capacity })
            .success item bin_data (movement_history d.movement_logs item.item_id)
          | _ => .serverError
        | _ => .serverError

/- ## Add-item endpoint `/api/item/add` (lines 135-177) -/

def requiredFields : List String :=
  ["item_id", "item_name", "category", "dimensions", "weight", "current_location"]

/-- The validation loop: the first required field absent from the body. -/
def firstMissingField (fd : PyDict) : Option String :=
  requiredFields.find? (fun f => (fd.get f).isNone)

/-- Python `float(v)`: numbers and bools coerce; a string coerces when it
is a decimal numeral (modulo surrounding whitespace); anything else
raises. -/
def pyFloat : PyVal → Option ℚ
  | .pnum q => some q
  | .pbool b => some (if b then 1 else 0)
  | .pstr s =>
    match scanNumber (skipWs s.data) with
    | some (.pnum q, rest) => if skipWs rest = [] then some q else Option.none
    | _ => Option.none
  | _ => Option.none

def isLeapYear (y : Nat) : Bool :=
  (y % 4 = 0 && y % 100 ≠ 0) || y % 400 = 0

def daysInMonth (y m : Nat) : Nat :=
  if m = 2 then (if isLeapYear y then 29 else 28)
  else if m = 4 || m = 6 || m = 9 || m = 11 then 30
  else 31

/-- `datetime.fromisoformat` on the date-only `YYYY-MM-DD` subset, mapped
to an integer timestamp: four digits, dash, two digits, dash, two digits,
with the year at least 1 (`datetime.MINYEAR`), the month 1..12 and the day
within the month's length (leap years included).  `Option.none` models
the `ValueError` on anything malformed or out of range. -/
def fromisoformat (s : String) : Option Int :=
  match s.data with
  | [y1, y2, y3, y4, h1, m1, m2, h2, d1, d2] =>
    if h1 = '-' && h2 = '-' &&
        [y1, y2, y3, y4, m1, m2, d1, d2].all Char.isDigit then
      let y := digitsNat [y1, y2, y3, y4]
      let m := digitsNat [m1, m2]
      let d := digitsNat [d1, d2]
      if 1 ≤ y && 1 ≤ m && m ≤ 12 && 1 ≤ d && d ≤ daysInMonth y m then
        some (((y * 372 + m * 31 + d : Nat) : Int) * 86400)
      else Option.none
    else Option.none
  | _ => Option.none

/-- `dims[key]` where `dims` is an arbitrary JSON value: subscripting a
non-dict raises. -/
def dictIndex (dims : PyVal) (key : String) : Option PyVal :=
  match dims with
  | .pdict dd => dd.get key
  | _ => Option.none

/-- Construction of the `new_item` document (lines 149-163): every
coercion must succeed, otherwise the handler falls to its except-branch. -/
def build_new_item (fd : PyDict) (now : Int) (oid : String) : Option Item := do
  let iid ← fd.get "item_id"
  let iname ← fd.get "item_name"
  let cat ← fd.get "category"
  let dims ← fd.get "dimensions"
  let l ← dictIndex dims "length" >>= pyFloat
  let w ← dictIndex dims "width" >>= pyFloat
  let h ← dictIndex dims "height" >>= pyFloat
  let wt ← fd.get "weight" >>= pyFloat
  let frag := ((fd.get "fragility").getD (.pbool false)).truthy
  let ed := (fd.get "expiry_date").getD .pnone
  let exp ← if ed.truthy then
      (match ed with
       | .pstr s => (fromisoformat s).map some
       | _ => Option.none)
    else pure Option.none
  let loc ← fd.get "current_location"
  pure { oid := oid, item_id := iid, item_name := iname, category := cat,
         dimensions := ⟨l, w, h⟩, weight := wt, fragility := frag,
         expiry_date := exp, current_location := loc, entry_date := now }

inductive AddResp where
  | notJson : AddResp
  | missingField : String → AddResp
  | serverError : AddResp
  | ok : AddResp
deriving DecidableEq, Repr

/-- The `/api/item/add` endpoint.  `form` is `Option.none` when the
request is not JSON.  On success the item document and then the movement
log document are appended to their collections. -/
def add_item (d : DB) (now : Int) (newOid : String) (form : Option PyDict) :
    DB × AddResp :=
  match form with
  | Option.none => (d, .notJson)
  | some fd =>
    match firstMissingField fd with
    | some f => (d, .missingField f)
    | Option.none =>
      match build_new_item fd now newOid with
      | Option.none => (d, .serverError)
      | some item =>
        let log : MovementLog :=
          { item_id := item.item_id, timestamp := now, movement_type := "in",
            location := item.current_location, order_id := "SYSTEM_ADD" }
        ({ d with inventory := d.inventory ++ [item],
                  movement_logs := d.movement_logs ++ [log] }, .ok)

/- ## Delete-item endpoint `/api/item/delete` (lines 179-200) -/

def isHexDigit (c : Char) : Bool :=
  c.isDigit || ('a' ≤ c && c ≤ 'f') || ('A' ≤ c && c ≤ 'F')

/-- `bson.ObjectId(s)` accepts exactly a 24-character hex string;
anything else raises `InvalidId`. -/
def isValidObjectId (s : String) : Bool :=
  s.length = 24 && s.data.all isHexDigit

/-- `delete_one`: remove the first document matching the predicate;
`Option.none` models `deleted_count == 0`. -/
def removeFirst (p : α → Bool) : List α → Option (List α)
  | [] => Option.none
  | x :: xs => if p x then some xs else (removeFirst p xs).map (fun ys => x :: ys)

inductive DelResp where
  | badRequest : DelResp
  | notFound : DelResp
  | serverError : DelResp
  | ok : DelResp
deriving DecidableEq, Repr

/-- The `/api/item/delete` endpoint.  `item_id` is the value extracted
from the JSON or form body (`Option.none` when absent); a falsy value is
rejected as missing, a value `ObjectId` cannot digest raises and becomes
`serverError`. -/
def delete_item (d : DB) (item_id : Option PyVal) : DB × DelResp :=
  match item_id with
  | Option.none => (d, .badRequest)
  | some v =>
    if ¬ v.truthy then (d, .badRequest)
    else
      match v with
      | .pstr s =>
        if isValidObjectId s then
          match removeFirst (fun it => it.oid == s) d.inventory with
          | some inv => ({ d with inventory := inv }, .ok)
          | Option.none => (d, .notFound)
        else (d, .serverError)
      | _ => (d, .serverError)

/- ## Expiring-soon count (stats lines 119-124) -/

/-- Does an item match the Mongo query
`{"expiry_date": {"$lt": now + 7 days, "$gte": now}}`?  A document whose
`expiry_date` is null or absent matches no date-range query. -/
def expiringMatch (now : Int) (it : Item) : Bool :=
  match it.expiry_date with
  | some t => now ≤ t && t < now + 7 * 86400
  | Option.none => false

/-- The `expiring_soon` figure of `/api/warehouse/stats`. -/
def expiring_soon (d : DB) (now : Int) : Nat :=
  (d.inventory.filter (expiringMatch now)).length

/- ## Concrete fixtures used by the claim witnesses -/

/-- A fully populated inventory document with default filler fields. -/
def mkItem (oid iid name loc : String) : Item :=
  { oid := oid, item_id := .pstr iid, item_name := .pstr name,
    category := .pstr "general", dimensions := ⟨1, 1, 1⟩, weight := 1,
    fragility := false, expiry_date := Option.none,
    current_location := .pstr loc, entry_date := 0 }

/-- The capacity record `{length: 5, width: 2, height: 3}`. -/
def capC1 : PyDict :=
  .dcons "length" (.pnum 5) (.dcons "width" (.pnum 2) (.dcons "height" (.pnum 3) .dnil))

/-- A 2x5x1 bin (volume 10) at utilization 0.5, capacity stored natively. -/
def binC2a : Bin :=
  { zone_id := "Z1", rack_id := "R1", bin_id := "B1",
    capacity := .pdict (.dcons "length" (.pnum 2)
      (.dcons "width" (.pnum 5) (.dcons "height" (.pnum 1) .dnil))),
    current_utilization := some (1 / 2) }

/-- A 4x5x1 bin (volume 20) at utilization 0.25, capacity stored as text. -/
def binC2b : Bin :=
  { zone_id := "Z1", rack_id := "R1", bin_id := "B2",
    capacity := .pstr "\x7b\"length\": 4, \"width\": 5, \"height\": 1\x7d",
    current_utilization := some (1 / 4) }

/-- The volume function of the two example bins. -/
def volsC2 : Bin → ℚ := fun b => (binVolume b).getD 0

def itemC4 : Item := mkItem "aaaaaaaaaaaaaaaaaaaaaaaa" "I40" "widget" "A-B-C-D"
def dbC4 : DB := { inventory := [itemC4], warehouse_layout := [], movement_logs := [] }
def reqC4 : PyDict := .dcons "item_name" (.pstr "widget") .dnil

def itemC4w : Item := mkItem "bbbbbbbbbbbbbbbbbbbbbbbb" "I41" "gadget" "A-B"
def dbC4w : DB := { inventory := [itemC4w], warehouse_layout := [], movement_logs := [] }
def reqC4w : PyDict := .dcons "item_name" (.pstr "gadget") .dnil

def itemC5 : Item := mkItem "cccccccccccccccccccccccc" "I50" "bolt" "X"
def dbC5 : DB := { inventory := [itemC5], warehouse_layout := [], movement_logs := [] }
def reqC5 : PyDict := .dcons "item_name" (.pstr "bolt") .dnil

def itemC5w : Item := mkItem "dddddddddddddddddddddddd" "I51" "nut" "Z1-R1-B1"
def binC5w : Bin :=
  { zone_id := "Z1", rack_id := "R1", bin_id := "B1",
    capacity := .pstr "\x7b\"length\": 4, \"width\": 5, \"height\": 1\x7d",
    current_utilization := some (1 / 2) }
def mkLog (iid : String) (ts : Int) (ty oid : String) : MovementLog :=
  { item_id := .pstr iid, timestamp := ts, movement_type := ty,
    location := .pstr "Z1-R1-B1", order_id := oid }
def dbC5w : DB :=
  { inventory := [itemC5w], warehouse_layout := [binC5w],
    movement_logs := [mkLog "I51" 3 "in" "SYSTEM_ADD", mkLog "I51" 9 "out" "O1",
      mkLog "I99" 4 "in" "SYSTEM_ADD", mkLog "I51" 1 "in" "O2",
      mkLog "I51" 7 "out" "O3", mkLog "I51" 5 "in" "O4",
      mkLog "I51" 2 "out" "O5"] }
def reqC5w : PyDict := .dcons "item_name" (.pstr "nut") .dnil
def reqC5n : PyDict := .dcons "item_name" (.pstr "no-such-item") .dnil

/-- An add request with every required field but an uncoercible weight. -/
def fdC6 : PyDict :=
  .dcons "item_id" (.pstr "I60") (.dcons "item_name" (.pstr "brick")
    (.dcons "category" (.pstr "raw") (.dcons "dimensions"
      (.pdict (.dcons "length" (.pnum 1)
        (.dcons "width" (.pnum 1) (.dcons "height" (.pnum 1) .dnil))))
      (.dcons "weight" (.plist .nil)
        (.dcons "current_location" (.pstr "Z-R-B") .dnil)))))

/-- A well-formed add request. -/
def fdC6w : PyDict :=
  .dcons "item_id" (.pstr "I61") (.dcons "item_name" (.pstr "cog")
    (.dcons "category" (.pstr "parts") (.dcons "dimensions"
      (.pdict (.dcons "length" (.pnum 1)
        (.dcons "width" (.pnum 2) (.dcons "height" (.pnum 3) .dnil))))
      (.dcons "weight" (.pnum 2)
        (.dcons "current_location" (.pstr "Z1-R1-B2") .dnil)))))

/-- The same request with the weight field left out. -/
def fdC6m : PyDict :=
  .dcons "item_id" (.pstr "I61") (.dcons "item_name" (.pstr "cog")
    (.dcons "category" (.pstr "parts") (.dcons "dimensions"
      (.pdict (.dcons "length" (.pnum 1)
        (.dcons "width" (.pnum 2) (.dcons "height" (.pnum 3) .dnil))))
      (.dcons "current_location" (.pstr "Z1-R1-B2") .dnil))))

def dbC6 : DB := { inventory := [], warehouse_layout := [], movement_logs := [] }

/-- The item the well-formed request produces. -/
def itemC6w : Item :=
  { oid := "eeeeeeeeeeeeeeeeeeeeeeee", item_id := .pstr "I61",
    item_name := .pstr "cog", category := .pstr "parts",
    dimensions := ⟨1, 2, 3⟩, weight := 2, fragility := false,
    expiry_date := Option.none, current_location := .pstr "Z1-R1-B2",
    entry_date := 7 }

def itemC7 : Item :=
  { mkItem "ffffffffffffffffffffffff" "I70" "milk" "Z-R-B" with expiry_date := some 0 }
def itemC7b : Item :=
  { mkItem "ffffffffffffffffffffff00" "I71" "eggs" "Z-R-B" with
    expiry_date := some (7 * 86400) }

def itemC8a : Item := mkItem "aaaaaaaaaaaaaaaaaaaaaa08" "I80" "hammer" "Z-R-B"
def itemC8b : Item := mkItem "bbbbbbbbbbbbbbbbbbbbbb08" "I81" "wrench" "Z-R-B"
def dbC8 : DB := { inventory := [itemC8a, itemC8b], warehouse_layout := [], movement_logs := [] }

/- ## Helper lemmas -/

theorem mem_insertDescByTs (m x : MovementLog) (l : List MovementLog) :
    x ∈ insertDescByTs m l ↔ x = m ∨ x ∈ l := by
  induction l with
  | nil => simp [insertDescByTs]
  | cons y ys ih =>
    by_cases hc : m.timestamp ≤ y.timestamp <;>
      (simp [insertDescByTs, hc, ih, List.mem_cons]; try tauto)

theorem mem_sortDescByTs (x : MovementLog) (l : List MovementLog) :
    x ∈ sortDescByTs l ↔ x ∈ l := by
  induction l with
  | nil => simp [sortDescByTs]
  | cons y ys ih => simp [sortDescByTs, mem_insertDescByTs, ih, List.mem_cons]

theorem pairwise_insertDescByTs (m : MovementLog) (l : List MovementLog)
    (h : l.Pairwise (fun a b => b.timestamp ≤ a.timestamp)) :
    (insertDescByTs m l).Pairwise (fun a b => b.timestamp ≤ a.timestamp) := by
  induction l with
  | nil => simp [insertDescByTs]
  | cons x xs ih =>
    rcases List.pairwise_cons.mp h with ⟨hx, hxs⟩
    by_cases hc : m.timestamp ≤ x.timestamp
    · simp only [insertDescByTs, if_pos hc]
      refine List.pairwise_cons.mpr ⟨?_, ih hxs⟩
      intro y hy
      rcases (mem_insertDescByTs m y xs).mp hy with rfl | hmem
      · exact hc
      · exact hx y hmem
    · simp only [insertDescByTs, if_neg hc]
      refine List.pairwise_cons.mpr ⟨?_, h⟩
      intro y hy
      rcases List.mem_cons.mp hy with rfl | hmem
      · omega
      · have := hx y hmem; omega

theorem pairwise_sortDescByTs (l : List MovementLog) :
    (sortDescByTs l).Pairwise (fun a b => b.timestamp ≤ a.timestamp) := by
  induction l with
  | nil => simp [sortDescByTs]
  | cons x xs ih => exact pairwise_insertDescByTs x (sortDescByTs xs) ih

theorem movement_history_length (logs : List MovementLog) (iid : PyVal) :
    (movement_history logs iid).length ≤ 5 := by
  simp only [movement_history]
  exact le_trans (List.length_take_le 5 _) (le_refl 5)

theorem movement_history_sorted (logs : List MovementLog) (iid : PyVal) :
    (movement_history logs iid).Pairwise (fun a b => b.timestamp ≤ a.timestamp) := by
  simp only [movement_history]
  exact (pairwise_sortDescByTs _).sublist (List.take_sublist 5 _)

theorem movement_history_item_id (logs : List MovementLog) (iid : PyVal) :
    ∀ m ∈ movement_history logs iid, m.item_id = iid := by
  intro m hm
  have h1 : m ∈ sortDescByTs (logs.filter (fun x => x.item_id == iid)) :=
    List.take_subset 5 _ hm
  have h2 : m ∈ logs.filter (fun x => x.item_id == iid) :=
    (mem_sortDescByTs m _).mp h1
  have h3 := List.of_mem_filter h2
  exact eq_of_beq h3

theorem removeFirst_append_cons {α : Type} (p : α → Bool) (pre post : List α)
    (x : α) (hpre : ∀ y ∈ pre, p y = false) (hx : p x = true) :
    removeFirst p (pre ++ x :: post) = some (pre ++ post) := by
  induction pre with
  | nil => simp [removeFirst, hx]
  | cons a as ih =>
    have ha : p a = false := hpre a (List.mem_cons_self a as)
    have ih2 := ih (fun y hy => hpre y (List.mem_cons_of_mem a hy))
    simp [removeFirst, ha, ih2]

theorem aggregateBins_go (bins : List Bin) (vols : Bin → ℚ)
    (h : ∀ b ∈ bins, binVolume b = some (vols b)) (acc : ℚ × ℚ) :
    List.foldlM aggStep acc bins =
      some (acc.1 + (bins.map vols).sum,
        acc.2 + (bins.map (fun b => vols b * b.current_utilization.getD 0)).sum) := by
  induction bins generalizing acc with
  | nil => simp [List.foldlM]
  | cons b bs ih =>
    have hb : binVolume b = some (vols b) := h b (List.mem_cons_self b bs)
    have hrest : ∀ x ∈ bs, binVolume x = some (vols x) :=
      fun x hx => h x (List.mem_cons_of_mem b hx)
    simp only [List.foldlM_cons, aggStep, hb, Option.map_some', Option.bind_eq_bind,
      Option.some_bind, ih hrest, List.map_cons, List.sum_cons, Option.some.injEq,
      Prod.mk.injEq]
    constructor <;> ring

/-- C2: the aggregation computes total capacity as the sum of parsed
volumes and used capacity as the sum of volume times utilization (a
missing utilization counting as 0); on the example bins of volumes
10 and 20 at utilizations 0.5 and 0.25 it yields total 30, used 10, and
the percentage 100/3 ≈ 33.3. -/
theorem aggregate_sums (bins : List Bin) (vols : Bin → ℚ)
    (h : ∀ b ∈ bins, binVolume b = some (vols b)) :
    aggregateBins bins =
      some ((bins.map vols).sum,
        (bins.map (fun b => vols b * b.current_utilization.getD 0)).sum) ∧
    aggregateBins [binC2a, binC2b] = some (30, 10) ∧
    utilizationPercent 30 10 = 100 / 3 ∧
    (333 : ℚ) / 10 ≤ 100 / 3 ∧ (100 : ℚ) / 3 < 334 / 10 := by
  refine ⟨?_, ?_, ?_, by norm_num, by norm_num⟩
  · have hgo := aggregateBins_go bins vols h (0, 0)
    simpa [aggregateBins] using hgo
  · simp only [aggregateBins, List.foldlM, aggStep,
      show binVolume binC2a = some ((2 : ℚ) * 5 * 1) from rfl,
      show binVolume binC2b = some ((4 : ℚ) * 5 * 1) from rfl,
      show binC2a.current_utilization = some (1 / 2) from rfl,
      show binC2b.current_utilization = some (1 / 4) from rfl, Option.getD_some]
    norm_num
  · rw [show utilizationPercent 30 10 = if (0 : ℚ) < 30 then 10 / 30 * 100 else 0
      from rfl]
    norm_num

/-- Witness for C2 on the two example bins. -/
theorem aggregate_sums_witness :
    aggregateBins [binC2a, binC2b] = some (30, 10) ∧
    utilizationPercent 30 10 = 100 / 3 :=
  ⟨(aggregate_sums [binC2a, binC2b] volsC2 (by
      intro b hb
      rcases List.mem_cons.mp hb with rfl | hb2
      · rfl
      · rcases List.mem_cons.mp hb2 with rfl | h3
        · rfl
        · cases h3)).2.1,
   (aggregate_sums [] volsC2 (by intro b hb; cases hb)).2.2.1⟩

/-- C8: a missing identifier yields 400; a well-formed identifier that
matches nothing yields 404 with the inventory unchanged; an identifier
matching a record removes exactly the first such record and succeeds. -/
theorem delete_item_spec (d : DB) (s : String)
    (hvalid : isValidObjectId s = true) :
    delete_item d Option.none = (d, .badRequest) ∧
    (removeFirst (fun it => it.oid == s) d.inventory = Option.none →
      delete_item d (some (.pstr s)) = (d, .notFound)) ∧
    (∀ pre it post, d.inventory = pre ++ it :: post →
      (∀ x ∈ pre, x.oid ≠ s) → it.oid = s →
      delete_item d (some (.pstr s)) =
        ({ d with inventory := pre ++ post }, .ok)) := by
  have hlen : s.length = 24 := by
    have := hvalid
    unfold isValidObjectId at this
    simp at this
    exact this.1
  have hne : s ≠ "" := by
    intro h; rw [h] at hlen; simp at hlen
  have htr : (PyVal.pstr s).truthy = true := by
    simp [PyVal.truthy, hne]
  refine ⟨rfl, ?_, ?_⟩
  · intro hrm
    simp [delete_item, htr, hvalid, hrm]
  · intro pre it post hinv hpre hit
    have hrm : removeFirst (fun x => x.oid == s) d.inventory = some (pre ++ post) := by
      rw [hinv]
      exact removeFirst_append_cons _ pre post it
        (fun y hy => by simp [hpre y hy]) (by simp [hit])
    simp [delete_item, htr, hvalid, hrm]

/-- Witness for C8: on a two-item inventory, a missing id, an unknown
valid id, and the id of the first item. -/
theorem delete_item_spec_witness :
    delete_item dbC8 Option.none = (dbC8, .badRequest) ∧
    delete_item dbC8 (some (.pstr "cccccccccccccccccccccccc")) = (dbC8, .notFound) ∧
    delete_item dbC8 (some (.pstr "aaaaaaaaaaaaaaaaaaaaaa08")) =
      ({ dbC8 with inventory := [] ++ [itemC8b] }, .ok) :=
  ⟨(delete_item_spec dbC8 "cccccccccccccccccccccccc" (by decide)).1,
   (delete_item_spec dbC8 "cccccccccccccccccccccccc" (by decide)).2.1 rfl,
   (delete_item_spec dbC8 "aaaaaaaaaaaaaaaaaaaaaa08" (by decide)).2.2
     [] itemC8a [itemC8b] rfl (by intro x hx; cases hx) rfl⟩

/-- C4 (amended): when the found item's string location splits into fewer
than three parts the handler raises and the request surfaces the generic
500 failure; with three or more parts the first three components are
used for the bin lookup and a success response is returned. -/
theorem get_item_location_parts (d : DB) (form : PyDict) (q : PyVal)
    (item : Item) (loc : String)
    (hq : form.get "item_name" = some q)
    (hfind : find_one_item d.inventory q = some item)
    (hloc : item.current_location = .pstr loc) :
    ((pySplit loc '-').length < 3 → get_item d (some form) = .serverError) ∧
    (∀ p0 p1 p2 rest, pySplit loc '-' = p0 :: p1 :: p2 :: rest →
      get_item d (some form) =
        .success item
          ((find_bin d.warehouse_layout p0 p1 p2).map
            (fun b => { b with capacity := parse_capacity b.capacity }))
          (movement_history d.movement_logs item.item_id)) := by
  constructor
  · intro hlen
    rcases hsp : pySplit loc '-' with _ | ⟨a, _ | ⟨b, _ | ⟨c, rest⟩⟩⟩
    · simp [get_item, hq, hfind, hloc, hsp]
    · simp [get_item, hq, hfind, hloc, hsp]
    · simp [get_item, hq, hfind, hloc, hsp]
    · rw [hsp] at hlen; simp at hlen; omega
  · intro p0 p1 p2 rest hsp
    simp [get_item, hq, hfind, hloc, hsp]

/-- C4 counterexample: an item whose location splits into four parts (not
exactly three) is served successfully instead of failing with 500. -/
theorem get_item_location_parts_cex :
    (pySplit "A-B-C-D" '-').length ≠ 3 ∧
    find_one_item dbC4.inventory (.pstr "widget") = some itemC4 ∧
    get_item dbC4 (some reqC4) = .success itemC4 Option.none [] := by
  refine ⟨by decide, rfl, rfl⟩

/-- Witness for C4: a found item at the two-part location "A-B" yields
the generic failure. -/
theorem get_item_location_parts_witness :
    get_item dbC4w (some reqC4w) = .serverError :=
  (get_item_location_parts dbC4w reqC4w (.pstr "gadget") itemC4w "A-B"
    rfl rfl rfl).1 (by decide)

/-- C5 (amended): an unmatched name yields NotFound; a matched item whose
string location splits into at least three parts yields a success
response carrying the item record, its bin details with the capacity
normalized by the parser, and at most five movement entries for the
item's identifier in descending timestamp order. -/
theorem get_item_lookup_spec (d : DB) (form : PyDict) (q : PyVal)
    (hq : form.get "item_name" = some q) :
    (find_one_item d.inventory q = Option.none →
      get_item d (some form) = .notFound) ∧
    (∀ item loc p0 p1 p2 rest,
      find_one_item d.inventory q = some item →
      item.current_location = .pstr loc →
      pySplit loc '-' = p0 :: p1 :: p2 :: rest →
      get_item d (some form) =
        .success item
          ((find_bin d.warehouse_layout p0 p1 p2).map
            (fun b => { b with capacity := parse_capacity b.capacity }))
          (movement_history d.movement_logs item.item_id) ∧
      (movement_history d.movement_logs item.item_id).length ≤ 5 ∧
      (movement_history d.movement_logs item.item_id).Pairwise
        (fun a b => b.timestamp ≤ a.timestamp) ∧
      ∀ m ∈ movement_history d.movement_logs item.item_id,
        m.item_id = item.item_id) := by
  constructor
  · intro hnone
    simp [get_item, hq, hnone]
  · intro item loc p0 p1 p2 rest hfind hloc hsp
    refine ⟨by simp [get_item, hq, hfind, hloc, hsp],
      movement_history_length _ _, movement_history_sorted _ _,
      movement_history_item_id _ _⟩

/-- C5 counterexample: a matched item can still produce the generic 500
failure (malformed stored location), so a match does not guarantee the
success payload. -/
theorem get_item_lookup_spec_cex :
    find_one_item dbC5.inventory (.pstr "bolt") = some itemC5 ∧
    get_item dbC5 (some reqC5) = .serverError := ⟨rfl, rfl⟩

/-- Witness for C5: a known item with seven logged movements (five
returned), and an unknown name. -/
theorem get_item_lookup_spec_witness :
    get_item dbC5w (some reqC5w) =
      .success itemC5w
        ((find_bin dbC5w.warehouse_layout "Z1" "R1" "B1").map
          (fun b => { b with capacity := parse_capacity b.capacity }))
        (movement_history dbC5w.movement_logs itemC5w.item_id) ∧
    (movement_history dbC5w.movement_logs itemC5w.item_id).length ≤ 5 ∧
    (movement_history dbC5w.movement_logs itemC5w.item_id).Pairwise
      (fun a b => b.timestamp ≤ a.timestamp) ∧
    (∀ m ∈ movement_history dbC5w.movement_logs itemC5w.item_id,
      m.item_id = itemC5w.item_id) ∧
    get_item dbC5w (some reqC5n) = .notFound := by
  have h := (get_item_lookup_spec dbC5w reqC5w (.pstr "nut") rfl).2
    itemC5w "Z1-R1-B1" "Z1" "R1" "B1" [] rfl rfl rfl
  have hn := (get_item_lookup_spec dbC5w reqC5n (.pstr "no-such-item") rfl).1 rfl
  exact ⟨h.1, h.2.1, h.2.2.1, h.2.2.2, hn⟩

/-- C6 (amended): a JSON request containing every required field whose
values coerce successfully inserts exactly one item document and appends
exactly one movement log entry of type "in" at the item's location with
the sentinel order id "SYSTEM_ADD"; a request missing a required field
is rejected with a 400 naming the first missing field and inserts
nothing. -/
theorem add_item_spec (d : DB) (now : Int) (oid : String) (fd : PyDict) :
    (∀ f, firstMissingField fd = some f →
      add_item d now oid (some fd) = (d, .missingField f)) ∧
    (∀ item, firstMissingField fd = Option.none →
      build_new_item fd now oid = some item →
      add_item d now oid (some fd) =
        ({ inventory := d.inventory ++ [item],
           warehouse_layout := d.warehouse_layout,
           movement_logs := d.movement_logs ++
             [{ item_id := item.item_id, timestamp := now,
                movement_type := "in", location := item.current_location,
                order_id := "SYSTEM_ADD" }] }, .ok)) := by
  constructor
  · intro f hf
    simp [add_item, hf]
  · intro item hmiss hbuild
    simp [add_item, hmiss, hbuild]

/-- C6 counterexample: a request with all six required fields present but
an uncoercible weight inserts nothing and yields the generic failure,
not the claimed item-plus-log insertion. -/
theorem add_item_spec_cex :
    firstMissingField fdC6 = Option.none ∧
    add_item dbC6 0 "cccccccccccccccccccccccc" (some fdC6) =
      (dbC6, .serverError) ∧
    (add_item dbC6 0 "cccccccccccccccccccccccc" (some fdC6)).1.inventory = [] ∧
    (add_item dbC6 0 "cccccccccccccccccccccccc" (some fdC6)).1.movement_logs = [] :=
  ⟨rfl, rfl, rfl, rfl⟩

/-- Witness for C6: a well-formed request inserts the one item and the
one log entry; the same request without its weight field is rejected
naming "weight". -/
theorem add_item_spec_witness :
    add_item dbC6 7 "eeeeeeeeeeeeeeeeeeeeeeee" (some fdC6w) =
      ({ inventory := [itemC6w],
         warehouse_layout := [],
         movement_logs :=
           [{ item_id := itemC6w.item_id, timestamp := 7,
              movement_type := "in", location := itemC6w.current_location,
              order_id := "SYSTEM_ADD" }] }, .ok) ∧
    add_item dbC6 7 "eeeeeeeeeeeeeeeeeeeeeeee" (some fdC6m) =
      (dbC6, .missingField "weight") :=
  ⟨(add_item_spec dbC6 7 "eeeeeeeeeeeeeeeeeeeeeeee" fdC6w).2 itemC6w rfl rfl,
   (add_item_spec dbC6 7 "eeeeeeeeeeeeeeeeeeeeeeee" fdC6m).1 "weight" rfl⟩

/-- C1: `parse_capacity` returns a structured record unchanged, returns
the decoded structure for a string whose literal parse succeeds, and
returns exactly the zero-capacity record for a string whose parse fails,
absorbing the failure instead of raising. -/
theorem parse_capacity_spec (d : PyDict) (s t : String) (v : PyVal)
    (hs : literal_eval s = some v) (ht : literal_eval t = Option.none) :
    parse_capacity (.pdict d) = .pdict d ∧
    parse_capacity (.pstr s) = v ∧
    parse_capacity (.pstr t) = zeroCapacity := by
  refine ⟨rfl, ?_, ?_⟩ <;> simp [parse_capacity, hs, ht]

/-- Witness for C1: a native record, the textual encoding of a record,
and a malformed string. -/
theorem parse_capacity_spec_witness :
    parse_capacity (.pdict capC1) = .pdict capC1 ∧
    parse_capacity (.pstr "\x7b\"length\": 5, \"width\": 2, \"height\": 3\x7d") =
      .pdict capC1 ∧
    parse_capacity (.pstr "not a dict") = zeroCapacity :=
  parse_capacity_spec capC1 "\x7b\"length\": 5, \"width\": 2, \"height\": 3\x7d"
    "not a dict" (.pdict capC1) rfl rfl

/-- C10: `parse_capacity` is the identity on every non-string input, and
for a string that parses as a non-dict literal it returns that decoded
value itself, not a record and not the fallback. -/
theorem parse_capacity_nonstring (v : PyVal) (hv : v.isStr = false)
    (s : String) (w : PyVal) (hw : literal_eval s = some w)
    (hnd : w.isDict = false) :
    parse_capacity v = v ∧
    parse_capacity (.pstr s) = w ∧
    (parse_capacity (.pstr s)).isDict = false := by
  refine ⟨?_, by simp [parse_capacity, hw], by simp [parse_capacity, hw, hnd]⟩
  cases v <;> simp_all [parse_capacity, PyVal.isStr]

/-- Witness for C10: `None` with the string `"42"`, and a number with the
string `"[1, 2]"`. -/
theorem parse_capacity_nonstring_witness :
    (parse_capacity .pnone = .pnone ∧
      parse_capacity (.pstr "42") = .pnum 42 ∧
      (parse_capacity (.pstr "42")).isDict = false) ∧
    (parse_capacity (.pnum 7) = .pnum 7 ∧
      parse_capacity (.pstr "[1, 2]") =
        .plist (.cons (.pnum 1) (.cons (.pnum 2) .nil)) ∧
      (parse_capacity (.pstr "[1, 2]")).isDict = false) :=
  ⟨parse_capacity_nonstring .pnone rfl "42" (.pnum 42) rfl rfl,
   parse_capacity_nonstring (.pnum 7) rfl "[1, 2]"
     (.plist (.cons (.pnum 1) (.cons (.pnum 2) .nil))) rfl rfl⟩

/-- C3: the aggregator reports used/total*100 exactly when the total is
positive and 0 otherwise; on an empty bin collection the sums are (0, 0)
and the reported percentage is 0 with no division performed. -/
theorem utilization_guard (tc uc : ℚ) :
    (0 < tc → utilizationPercent tc uc = uc / tc * 100) ∧
    (¬ 0 < tc → utilizationPercent tc uc = 0) ∧
    aggregateBins [] = some (0, 0) ∧
    dashboard_utilization [] = some 0 := by
  refine ⟨fun h => if_pos h, fun h => if_neg h, rfl, ?_⟩
  simp [dashboard_utilization, aggregateBins, List.foldlM, utilizationPercent]

/-- Witness for C3 at total 30, used 10, and at total 0. -/
theorem utilization_guard_witness :
    utilizationPercent 30 10 = 10 / 30 * 100 ∧ utilizationPercent 0 5 = 0 :=
  ⟨(utilization_guard 30 10).1 (by norm_num),
   (utilization_guard 0 5).2.1 (by norm_num)⟩

theorem expiringMatch_iff (now : Int) (it : Item) (t : Int)
    (ht : it.expiry_date = some t) :
    expiringMatch now it = true ↔ now ≤ t ∧ t < now + 7 * 86400 := by
  simp [expiringMatch, ht]

/-- C7: an appended item raises the expiring-soon count by one exactly
when its expiry lies in [now, now + 7 days); expiry exactly at `now`
matches the window and expiry exactly at `now + 7 days` does not. -/
theorem expiring_soon_window (inv : List Item) (bins : List Bin)
    (logs : List MovementLog) (now t : Int) (it : Item)
    (ht : it.expiry_date = some t) :
    expiring_soon ⟨inv ++ [it], bins, logs⟩ now =
      expiring_soon ⟨inv, bins, logs⟩ now +
        (if now ≤ t ∧ t < now + 7 * 86400 then 1 else 0) ∧
    (t = now → expiringMatch now it = true) ∧
    (t = now + 7 * 86400 → expiringMatch now it = false) := by
  refine ⟨?_, ?_, ?_⟩
  · simp only [expiring_soon]
    rw [List.filter_append, List.length_append]
    congr 1
    by_cases h : now ≤ t ∧ t < now + 7 * 86400
    · rw [if_pos h]
      have hb : expiringMatch now it = true := (expiringMatch_iff now it t ht).mpr h
      simp [hb]
    · rw [if_neg h]
      have hb : expiringMatch now it = false := by
        rcases hx : expiringMatch now it with _ | _
        · rfl
        · exact absurd ((expiringMatch_iff now it t ht).mp hx) h
      simp [hb]
  · intro h
    exact (expiringMatch_iff now it t ht).mpr ⟨by omega, by omega⟩
  · intro h
    rcases hx : expiringMatch now it with _ | _
    · rfl
    · have hw := (expiringMatch_iff now it t ht).mp hx
      omega

/-- Witness for C7: at `now = 0`, an item expiring at 0 is counted and an
item expiring at exactly 604800 is not. -/
theorem expiring_soon_window_witness :
    (expiring_soon ⟨[] ++ [itemC7], [], []⟩ 0 =
      expiring_soon ⟨[], [], []⟩ 0 +
        (if (0 : ℤ) ≤ 0 ∧ (0 : ℤ) < 0 + 7 * 86400 then 1 else 0) ∧
      expiringMatch 0 itemC7 = true) ∧
    expiringMatch 0 itemC7b = false :=
  ⟨⟨(expiring_soon_window [] [] [] 0 0 itemC7 rfl).1,
    (expiring_soon_window [] [] [] 0 0 itemC7 rfl).2.1 rfl⟩,
   (expiring_soon_window [] [] [] 0 (7 * 86400) itemC7b rfl).2.2 rfl⟩

/-- C9: the delete endpoint never writes to the movement log collection,
whatever the request and outcome. -/
theorem delete_item_preserves_logs (d : DB) (item_id : Option PyVal) :
    ((delete_item d item_id).1).movement_logs = d.movement_logs := by
  unfold delete_item
  rcases item_id with _ | v
  · rfl
  · dsimp only
    split
    · rfl
    · split
      · split
        · split <;> rfl
        · rfl
      · rfl
